import Mathlib

/-!
Shallow embedding of `src/projeto.py`, a console order-placement demo.

Modelling conventions:
* Python `float` amounts are modelled as exact rationals (`ℚ`); the numeric
  literals appearing in the program (`0.1`, menu options) are exact in `ℚ`,
  and the behaviours claimed by the specification (`total × 0.9`, `90.0`)
  coincide with exact rational arithmetic on the inputs involved.  The
  non-finite floats `inf`, `-inf` and `nan`, which `float(input())` can
  produce from keyword literals, are carried separately as `NonFinite`
  values.  Numeric input parsing follows Python's `int()`/`float()`
  grammar (white-space stripping, signs, underscores between digits,
  decimal point, exponents, non-finite keywords) on ASCII text; non-ASCII
  Unicode decimal digits are excluded by convention.
* `print` side effects are modelled as an explicit trace of `Output` events,
  one event per semantically distinct printed line (constant menu/prompt
  lines carry no data and are elided from the trace).
* Python methods never assign to `self` in this program, but the embedding
  threads the receiver object through each call explicitly, so that
  preservation of state is a provable statement rather than a convention.
-/

namespace Projeto

/-- `class Order` (projeto.py lines 7-10): record of items and customer. -/
structure Order where
  items : List String
  customer : String
deriving DecidableEq, Repr

/-- The two concrete `PaymentProcessor` subclasses (lines 25-31). -/
inductive PaymentProcessor where
  | creditCardPayment
  | pixPayment
deriving DecidableEq, Repr

/-- The two concrete `Discount` subclasses (lines 42-51); the
`PercentageDiscount` constructor carries its `percentage` field. -/
inductive Discount where
  | noDiscount
  | percentageDiscount (percentage : ℚ)
deriving DecidableEq, Repr

/-- The three non-finite values of Python's `float` type, which have no
counterpart in `ℚ`.  They enter this program only through `float(input())`
(literals `inf`, `infinity`, `nan`, case-insensitively, with an optional
sign). -/
inductive NonFinite where
  | posInf
  | negInf
  | nan
deriving DecidableEq, Repr

/-- One printed line of the program, as an event carrying the data that
was interpolated into the corresponding f-string.  Amount-carrying lines
come in a finite (`ℚ`) form and a non-finite form, the latter printed when
the session's total is `inf`, `-inf` or `nan`. -/
inductive Output where
  | welcome
  | invalidPaymentWarning
  | invalidDiscountWarning
  | finalTotalLine (amount : ℚ)
  | creditCardLine (amount : ℚ)
  | pixLine (amount : ℚ)
  | finalTotalSpecial (v : NonFinite)
  | creditCardSpecial (v : NonFinite)
  | pixSpecial (v : NonFinite)
  | saveOrderLine (customer : String) (items : List String)
  | closingLine
deriving DecidableEq, Repr

/-- `OrderRepository.save_order` (lines 12-14): prints the order-saved line.
The repository is stateless; the order is threaded through unchanged. -/
def OrderRepository.save_order (order : Order) : Order × List Output :=
  (order, [Output.saveOrderLine order.customer order.items])

/-- `process_payment` (lines 26-27 and 30-31): prints a confirmation for
the given amount; the processor is threaded through unchanged. -/
def PaymentProcessor.process_payment :
    PaymentProcessor → ℚ → PaymentProcessor × List Output
  | .creditCardPayment, amount => (.creditCardPayment, [Output.creditCardLine amount])
  | .pixPayment, amount => (.pixPayment, [Output.pixLine amount])

/-- `apply_discount` (lines 43-44 and 50-51): `NoDiscount` returns the
total unchanged, `PercentageDiscount` returns `total * (1 - percentage)`;
the discount object is threaded through unchanged. -/
def Discount.apply_discount : Discount → ℚ → Discount × ℚ
  | .noDiscount, total => (.noDiscount, total)
  | .percentageDiscount p, total => (.percentageDiscount p, total * (1 - p))

/-- `class OrderService` (lines 60-63): holds one payment processor and one
discount. -/
structure OrderService where
  payment_processor : PaymentProcessor
  discount : Discount
deriving DecidableEq, Repr

/-- `OrderService.place_order` (lines 65-69): apply the discount, print the
discounted total, process the payment on the discounted total, save the
order.  Returns the service and order after the call together with the
trace of printed lines. -/
def OrderService.place_order (s : OrderService) (order : Order) (total : ℚ) :
    OrderService × Order × List Output :=
  let (d, discounted_total) := s.discount.apply_discount total
  let (pp, payOut) := s.payment_processor.process_payment discounted_total
  let (order2, saveOut) := OrderRepository.save_order order
  (⟨pp, d⟩, order2, Output.finalTotalLine discounted_total :: payOut ++ saveOut)

/-- The confirmation line each payment processor prints for an amount
(the data content of lines 27 and 31). -/
def paymentConfirmation : PaymentProcessor → ℚ → Output
  | .creditCardPayment, amount => Output.creditCardLine amount
  | .pixPayment, amount => Output.pixLine amount

/-- The confirmation line each payment processor prints when the amount is
one of the non-finite floats. -/
def paymentConfirmationSpecial : PaymentProcessor → NonFinite → Output
  | .creditCardPayment, v => Output.creditCardSpecial v
  | .pixPayment, v => Output.pixSpecial v

/-- Payment-option dispatch (lines 86-92): `1` picks credit card, `2` picks
Pix, anything else warns and falls back to credit card. -/
def select_payment (payment_option : ℤ) : PaymentProcessor × List Output :=
  if payment_option = 1 then (.creditCardPayment, [])
  else if payment_option = 2 then (.pixPayment, [])
  else (.creditCardPayment, [Output.invalidPaymentWarning])

/-- Discount-option dispatch (lines 100-106): `1` picks no discount, `2`
picks a 10% percentage discount, anything else warns and falls back to no
discount. -/
def select_discount (discount_option : ℤ) : Discount × List Output :=
  if discount_option = 1 then (.noDiscount, [])
  else if discount_option = 2 then (.percentageDiscount (1/10), [])
  else (.noDiscount, [Output.invalidDiscountWarning])

/-- Auxiliary for `splitComma`: structural recursion over the characters,
accumulating the current field in reverse. -/
def splitCommaAux : List Char → List Char → List (List Char)
  | [], acc => [acc.reverse]
  | c :: rest, acc =>
    if c = ',' then acc.reverse :: splitCommaAux rest []
    else splitCommaAux rest (c :: acc)

/-- Model of Python `s.split(",")` (line 77): cut the string at every
comma, keeping empty fields (`"".split(",")` is `[""]`). -/
def splitComma (s : String) : List String :=
  (splitCommaAux s.data []).map String.mk

/-- Model of Python `s.lower()` (line 117): lowercase every character. -/
def lowerStr (s : String) : String :=
  String.mk (s.data.map Char.toLower)

/-- Value of a list of decimal digit characters, most significant first. -/
def digitsToNat (ds : List Char) : ℕ :=
  ds.foldl (fun acc c => acc * 10 + (c.toNat - '0'.toNat)) 0

/-- The Unicode white-space code points that Python's `int()` and
`float()` strip from both ends of their argument. -/
def isPySpace (c : Char) : Bool :=
  let n := c.toNat
  (9 ≤ n && n ≤ 13) || n = 32 || n = 0x85 || n = 0xA0 ||
  n = 0x1680 || (0x2000 ≤ n && n ≤ 0x200A) || n = 0x2028 || n = 0x2029 ||
  n = 0x202F || n = 0x205F || n = 0x3000

/-- Strip leading and trailing white space, as Python's numeric
constructors do before parsing. -/
def pyStrip (cs : List Char) : List Char :=
  ((cs.dropWhile isPySpace).reverse.dropWhile isPySpace).reverse

/-- Tail of a digit run with PEP-515 underscores: every element is a digit
or an underscore directly followed by a digit.  Returns the digits with
the underscores removed. -/
def digitRunAux : List Char → Option (List Char)
  | [] => some []
  | ['_'] => none
  | '_' :: c :: rest => if c.isDigit then (digitRunAux rest).map (c :: ·) else none
  | c :: rest => if c.isDigit then (digitRunAux rest).map (c :: ·) else none

/-- A nonempty run of decimal digits with underscores allowed strictly
between digits (`"1_0"` but not `"_1"`, `"1_"` or `"1__0"`), as Python
accepts inside numeric literals.  Returns the digits with the underscores
removed.  (Python additionally accepts non-ASCII Unicode decimal digits;
this model's declared convention is ASCII digits.) -/
def parseDigitRun : List Char → Option (List Char)
  | [] => none
  | c :: rest => if c.isDigit then (digitRunAux rest).map (c :: ·) else none

/-- A possibly empty digit run: the run before or after the decimal point
of a float literal may be absent, as in `"1."` and `".5"`. -/
def parseOptRun : List Char → Option (List Char)
  | [] => some []
  | cs => parseDigitRun cs

/-- Model of Python `int(s)` (lines 84 and 98): surrounding white space,
an optional sign, then a nonempty digit run with underscores strictly
between digits; any other string raises `ValueError`, modelled as `none`.
(Only the default base 10 arises in this program.) -/
def parseInt (s : String) : Option ℤ :=
  let (sign, ds) : ℤ × List Char :=
    match pyStrip s.data with
    | '-' :: rest => (-1, rest)
    | '+' :: rest => (1, rest)
    | cs => (1, cs)
  (parseDigitRun ds).map fun digits => sign * digitsToNat digits

/-- Shape analysis of a Python float literal, after white-space stripping
and an optional sign: either one of the keywords `inf`, `infinity`, `nan`
(case-insensitive), or a decimal mantissa — digit runs around at most one
point, at least one digit, underscores strictly between digits — with an
optional exponent (`e`/`E`, optional sign, digit run).  Returns the sign,
the mantissa digit runs and the exponent value, or the non-finite value
the keyword names; `none` when the string is outside the grammar. -/
def floatParts (s : String) : Option ((ℤ × List Char × List Char × ℤ) ⊕ NonFinite) :=
  let (sign, cs) : ℤ × List Char :=
    match pyStrip s.data with
    | '-' :: rest => (-1, rest)
    | '+' :: rest => (1, rest)
    | rest => (1, rest)
  let lcs := cs.map Char.toLower
  if lcs = "inf".data ∨ lcs = "infinity".data then
    some (Sum.inr (if sign = -1 then NonFinite.negInf else NonFinite.posInf))
  else if lcs = "nan".data then
    some (Sum.inr NonFinite.nan)
  else
    let mant := cs.takeWhile fun c => ¬(c = 'e' ∨ c = 'E')
    let erest := cs.dropWhile fun c => ¬(c = 'e' ∨ c = 'E')
    let ip := mant.takeWhile (· ≠ '.')
    let fpRaw := (mant.dropWhile (· ≠ '.')).drop 1
    match parseOptRun ip, parseOptRun fpRaw with
    | some ipd, some fpd =>
      if ip = [] ∧ fpRaw = [] then none
      else
        match erest with
        | [] => some (Sum.inl (sign, ipd, fpd, 0))
        | _ :: etail =>
          let (esign, eds) : ℤ × List Char :=
            match etail with
            | '-' :: r => (-1, r)
            | '+' :: r => (1, r)
            | r => (1, r)
          match parseDigitRun eds with
          | some ed => some (Sum.inl (sign, ipd, fpd, esign * digitsToNat ed))
          | none => none
    | _, _ => none

/-- The rational value denoted by a sign, the digit runs before and after
the decimal point, and the exponent. -/
def floatVal : ℤ × List Char × List Char × ℤ → ℚ
  | (sign, ip, fp, e) =>
    sign * ((digitsToNat ip + digitsToNat fp / 10 ^ fp.length) * (10 : ℚ) ^ e)

/-- Model of Python `float(s)` (line 78): `none` models the `ValueError`
raised on a string outside the literal grammar of `floatParts`; a
recognized literal denotes its exact rational value, or the non-finite
float it names. -/
def parseFloat (s : String) : Option (ℚ ⊕ NonFinite) :=
  (floatParts s).map (Sum.map floatVal id)

/-- Whether an `Except` outcome is a normal completion. -/
def isOk : Except String Unit → Bool
  | .ok _ => true
  | .error _ => false

/-- `get_user_input` (lines 72-111) as a function of the five strings the
user types (customer, comma-separated items, total, payment option,
discount option).  Returns the trace of printed lines together with
`Except.ok ()` on normal completion, or `Except.error` carrying the
`ValueError` message when a numeric field fails to parse — in which case
the trace stops at the lines printed before the failing `input` call. -/
def get_user_input (customer items_str total_str payment_str discount_str : String) :
    List Output × Except String Unit :=
  let items := splitComma items_str
  match parseFloat total_str with
  | none => ([Output.welcome], Except.error "could not convert string to float")
  | some tv =>
    match parseInt payment_str with
    | none => ([Output.welcome], Except.error "invalid literal for int")
    | some payment_option =>
      let (payment_processor, w1) := select_payment payment_option
      match parseInt discount_str with
      | none => (Output.welcome :: w1, Except.error "invalid literal for int")
      | some discount_option =>
        let (discount, w2) := select_discount discount_option
        let order : Order := ⟨items, customer⟩
        match tv with
        | Sum.inl total =>
          let order_service : OrderService := ⟨payment_processor, discount⟩
          let (_, _, out) := order_service.place_order order total
          (Output.welcome :: w1 ++ w2 ++ out, Except.ok ())
        | Sum.inr v =>
          -- A non-finite total flows through the same pipeline and the
          -- session still completes.  Both discounts `select_discount` can
          -- build preserve `inf`, `-inf` and `nan`: `NoDiscount` is the
          -- identity and `PercentageDiscount(0.1)` multiplies by the
          -- positive finite `0.9`, so the discounted total printed and
          -- paid is the total itself; the save line does not involve it.
          (Output.welcome :: w1 ++ w2 ++
            [Output.finalTotalSpecial v,
             paymentConfirmationSpecial payment_processor v,
             Output.saveOrderLine order.customer order.items], Except.ok ())

/-- Whether a trace contains the order-saved line (i.e. whether an order
was processed to completion). -/
def hasSaveLine (trace : List Output) : Bool :=
  trace.any fun o =>
    match o with
    | Output.saveOrderLine _ _ => true
    | _ => false

/-- The five strings one loop iteration consumes for `get_user_input`,
plus the answer to the continuation prompt of line 117. -/
structure IterationInput where
  customer : String
  items : String
  total : String
  payment : String
  discount : String
  answer : String
deriving DecidableEq, Repr

/-- Outcome of the `while True` session of lines 114-120. -/
inductive SessionResult where
  /-- The loop ended by the `break` of line 120: `orders` iterations ran to
  completion and the closing message of line 119 was printed. -/
  | normalExit (orders : ℕ)
  /-- An iteration raised an unhandled `ValueError`; `orders` iterations
  had completed before it. -/
  | crash (orders : ℕ)
  /-- The supplied input stream ran out while the loop wanted more. -/
  | needMoreInput
deriving DecidableEq, Repr

/-- The `__main__` loop (lines 114-120), run on a stream of iteration
inputs: each iteration runs `get_user_input`, then reads the continuation
answer; the loop repeats exactly when `answer.lower()` equals `"s"`,
otherwise it prints the closing message and breaks. -/
def main_loop : List IterationInput → SessionResult
  | [] => .needMoreInput
  | it :: rest =>
    match (get_user_input it.customer it.items it.total it.payment it.discount).2 with
    | .error _ => .crash 0
    | .ok () =>
      if lowerStr it.answer = "s" then
        match main_loop rest with
        | .normalExit n => .normalExit (n + 1)
        | .crash n => .crash (n + 1)
        | .needMoreInput => .needMoreInput
      else .normalExit 1

/-- Whether one loop iteration's `get_user_input` call completes without an
unhandled `ValueError`. -/
def iterationOk (it : IterationInput) : Bool :=
  isOk (get_user_input it.customer it.items it.total it.payment it.discount).2

/-- The session never reports zero completed orders on the normal-exit
path: the loop body runs `get_user_input` before asking whether to
continue, so a normal exit counts at least one order. -/
lemma main_loop_ne_normalExit_zero (l : List IterationInput) :
    main_loop l ≠ SessionResult.normalExit 0 := by
  cases l with
  | nil => simp [main_loop]
  | cons it rest =>
    simp only [main_loop]
    split
    · simp
    · split
      · cases hrest : main_loop rest <;> simp
      · simp

/-- C1: payment-option dispatch (lines 86-92): option `1` selects credit
card with no warning, option `2` selects Pix with no warning, and every
other integer selects credit card after emitting the invalid-option
warning. -/
theorem payment_option_dispatch (n : ℤ) :
    (n = 1 → select_payment n = (PaymentProcessor.creditCardPayment, []))
    ∧ (n = 2 → select_payment n = (PaymentProcessor.pixPayment, []))
    ∧ (n ≠ 1 → n ≠ 2 →
        select_payment n =
          (PaymentProcessor.creditCardPayment, [Output.invalidPaymentWarning])) := by
  refine ⟨fun h => ?_, fun h => ?_, fun h1 h2 => ?_⟩
  · subst h; rfl
  · subst h; rfl
  · simp [select_payment, h1, h2]

/-- Witness for C1 at the invalid option `7`. -/
theorem payment_option_dispatch_witness :
    select_payment 7 = (PaymentProcessor.creditCardPayment, [Output.invalidPaymentWarning]) :=
  (payment_option_dispatch 7).2.2 (by decide) (by decide)

/-- C2: discount-option dispatch (lines 100-106) composed with
`apply_discount`: option `1` leaves any total unchanged with no warning,
option `2` yields `total * (9/10)` with no warning, and every other
integer leaves the total unchanged after emitting the invalid-option
warning. -/
theorem discount_option_dispatch (n : ℤ) (total : ℚ) :
    (n = 1 → ((select_discount n).1.apply_discount total).2 = total
        ∧ (select_discount n).2 = [])
    ∧ (n = 2 → ((select_discount n).1.apply_discount total).2 = total * (9/10)
        ∧ (select_discount n).2 = [])
    ∧ (n ≠ 1 → n ≠ 2 → ((select_discount n).1.apply_discount total).2 = total
        ∧ (select_discount n).2 = [Output.invalidDiscountWarning]) := by
  refine ⟨fun h => ?_, fun h => ?_, fun h1 h2 => ?_⟩
  · subst h; exact ⟨rfl, rfl⟩
  · subst h
    refine ⟨?_, rfl⟩
    show total * (1 - 1/10) = total * (9/10)
    norm_num
  · simp [select_discount, h1, h2, Discount.apply_discount]

/-- Witness for C2 at the invalid option `3` with total `40`. -/
theorem discount_option_dispatch_witness :
    ((select_discount 3).1.apply_discount 40).2 = 40
    ∧ (select_discount 3).2 = [Output.invalidDiscountWarning] :=
  (discount_option_dispatch 3 40).2.2 (by decide) (by decide)

/-- C3: `place_order` always prints, in this order and with no branching:
the discounted total, the selected processor's confirmation for the
discounted (not the original) total, and the order-saved line. -/
theorem place_order_sequence (s : OrderService) (order : Order) (total : ℚ) :
    (s.place_order order total).2.2 =
      [Output.finalTotalLine (s.discount.apply_discount total).2,
       paymentConfirmation s.payment_processor (s.discount.apply_discount total).2,
       Output.saveOrderLine order.customer order.items] := by
  obtain ⟨pp, d⟩ := s
  cases pp <;> cases d <;> rfl

/-- C4: `PercentageDiscount(rate).apply_discount(total)` is exactly
`total * (1 - rate)` with no bounds check on the rate, and for positive
totals a rate of at least 1 produces a nonpositive result. -/
theorem percentage_discount_formula (total rate : ℚ) :
    ((Discount.percentageDiscount rate).apply_discount total).2 = total * (1 - rate)
    ∧ (0 < total → 1 ≤ rate →
        ((Discount.percentageDiscount rate).apply_discount total).2 ≤ 0) := by
  constructor
  · rfl
  · intro ht hr
    show total * (1 - rate) ≤ 0
    nlinarith

/-- Witness for C4 at total `100` and rate `2`. -/
theorem percentage_discount_formula_witness :
    ((Discount.percentageDiscount 2).apply_discount 100).2 ≤ 0 :=
  (percentage_discount_formula 100 2).2 (by norm_num) (by norm_num)

/-- C5 counterexample: with the negative total `-10` and the positive rate
`1/2`, `apply_discount` returns `-5`, which is strictly greater than the
input total, refuting the claim as stated for arbitrary totals. -/
theorem percentage_discount_le_cex :
    ¬ (((Discount.percentageDiscount (1/2)).apply_discount (-10)).2 ≤ -10) := by
  show ¬ ((-10 : ℚ) * (1 - 1/2) ≤ -10)
  norm_num

/-- C5 (amended): for every nonnegative total and positive rate, the
output of `PercentageDiscount(rate).apply_discount` is at most the input
total. -/
theorem percentage_discount_le_total (total rate : ℚ)
    (htotal : 0 ≤ total) (hrate : 0 < rate) :
    ((Discount.percentageDiscount rate).apply_discount total).2 ≤ total := by
  show total * (1 - rate) ≤ total
  nlinarith

/-- Witness for amended C5 at total `100` and rate `1/10`. -/
theorem percentage_discount_le_total_witness :
    ((Discount.percentageDiscount (1/10)).apply_discount 100).2 ≤ 100 :=
  percentage_discount_le_total 100 (1/10) (by norm_num) (by norm_num)

/-- C6: `NoDiscount.apply_discount` is the identity on the total, and
applying it twice equals applying it once. -/
theorem no_discount_identity (total : ℚ) :
    (Discount.noDiscount.apply_discount total).2 = total
    ∧ (Discount.noDiscount.apply_discount
          ((Discount.noDiscount.apply_discount total).2)).2
        = (Discount.noDiscount.apply_discount total).2 :=
  ⟨rfl, rfl⟩

/-- C10: `place_order` leaves all state unchanged: the service (hence both
strategies and the discount's rate) and the order (hence its items and
customer) are returned exactly as passed in; only the output trace is
produced. -/
theorem place_order_frame (s : OrderService) (order : Order) (total : ℚ) :
    (s.place_order order total).1 = s ∧ (s.place_order order total).2.1 = order := by
  obtain ⟨pp, d⟩ := s
  cases pp <;> cases d <;> exact ⟨rfl, rfl⟩

/-- C7 (Scenario A): customer `"Ana"`, items `"bread,milk"`, total `100`,
payment option `1`, discount option `2` yields the discounted total `90`,
a credit-card confirmation for `90`, and the order-saved line for `"Ana"`
with items `["bread", "milk"]`, completing normally. -/
theorem scenario_a :
    get_user_input "Ana" "bread,milk" "100" "1" "2" =
      ([Output.welcome, Output.finalTotalLine 90, Output.creditCardLine 90,
        Output.saveOrderLine "Ana" ["bread", "milk"]], Except.ok ()) := by
  have hparts : floatParts "100" = some (Sum.inl (1, ['1', '0', '0'], [], 0)) := by decide
  have hd1 : digitsToNat ['1', '0', '0'] = 100 := by decide
  have hd2 : digitsToNat ([] : List Char) = 0 := by decide
  have h100 : parseFloat "100" = some (Sum.inl (100 : ℚ)) := by
    rw [parseFloat, hparts, Option.map_some']
    norm_num [Sum.map, floatVal, hd1, hd2]
  have h1 : parseInt "1" = some 1 := by decide
  have h2 : parseInt "2" = some 2 := by decide
  have hsplit : splitComma "bread,milk" = ["bread", "milk"] := by decide
  have h90 : (100 : ℚ) * (1 - 1/10) = 90 := by norm_num
  simp only [get_user_input, h100, h1, h2, hsplit, select_payment, select_discount,
    OrderService.place_order, Discount.apply_discount, PaymentProcessor.process_payment,
    OrderRepository.save_order, h90]
  norm_num

/-- C8: a session run of `get_user_input` completes normally exactly when
the total and both option fields parse as numbers; when any of them fails
to parse, the `ValueError` propagates (no order-saved line is emitted) and
the surrounding session loop terminates abnormally with zero completed
orders. -/
theorem numeric_parse_failure (c i t p d ans : String) (rest : List IterationInput) :
    (isOk (get_user_input c i t p d).2 = true ↔
      ((parseFloat t).isSome ∧ (parseInt p).isSome ∧ (parseInt d).isSome))
    ∧ (isOk (get_user_input c i t p d).2 = false →
        hasSaveLine (get_user_input c i t p d).1 = false)
    ∧ (isOk (get_user_input c i t p d).2 = false →
        main_loop (({ customer := c, items := i, total := t, payment := p,
                      discount := d, answer := ans } : IterationInput) :: rest)
          = SessionResult.crash 0) := by
  have hw : ∀ n : ℤ, hasSaveLine (Output.welcome :: (select_payment n).2) = false := by
    intro n
    simp only [select_payment]
    split
    · rfl
    · split <;> rfl
  cases hft : parseFloat t with
  | none =>
    refine ⟨?_, ?_, ?_⟩
    · simp [get_user_input, hft, isOk]
    · intro _
      simp [get_user_input, hft, hasSaveLine]
    · intro _
      simp [main_loop, get_user_input, hft]
  | some tv =>
    cases hp : parseInt p with
    | none =>
      refine ⟨?_, ?_, ?_⟩
      · simp [get_user_input, hft, hp, isOk]
      · intro _
        simp [get_user_input, hft, hp, hasSaveLine]
      · intro _
        simp [main_loop, get_user_input, hft, hp]
    | some po =>
      cases hd : parseInt d with
      | none =>
        refine ⟨?_, ?_, ?_⟩
        · simp [get_user_input, hft, hp, hd, isOk]
        · intro _
          simpa [get_user_input, hft, hp, hd] using hw po
        · intro _
          simp [main_loop, get_user_input, hft, hp, hd]
      | some dopt =>
        cases tv with
        | inl total =>
          refine ⟨?_, ?_, ?_⟩
          · simp [get_user_input, hft, hp, hd, isOk]
          · intro hko
            exfalso
            simp [get_user_input, hft, hp, hd, isOk] at hko
          · intro hko
            exfalso
            simp [get_user_input, hft, hp, hd, isOk] at hko
        | inr v =>
          refine ⟨?_, ?_, ?_⟩
          · simp [get_user_input, hft, hp, hd, isOk]
          · intro hko
            exfalso
            simp [get_user_input, hft, hp, hd, isOk] at hko
          · intro hko
            exfalso
            simp [get_user_input, hft, hp, hd, isOk] at hko

/-- Witness for C8 at the non-numeric total `"abc"`. -/
theorem numeric_parse_failure_witness :
    isOk (get_user_input "Ana" "bread" "abc" "1" "2").2 = false
    ∧ hasSaveLine (get_user_input "Ana" "bread" "abc" "1" "2").1 = false
    ∧ main_loop [{ customer := "Ana", items := "bread", total := "abc",
                   payment := "1", discount := "2", answer := "n" }] = SessionResult.crash 0 :=
  ⟨by decide,
   (numeric_parse_failure "Ana" "bread" "abc" "1" "2" "n" []).2.1 (by decide),
   (numeric_parse_failure "Ana" "bread" "abc" "1" "2" "n" []).2.2 (by decide)⟩

/-- C9: the loop of lines 114-120 continues exactly when the continuation
answer, lowercased, is `"s"`: after one completed order, any other answer
ends the session normally (the closing-message path) with exactly one
order processed, and an `"s"` answer followed by a non-`"s"` answer
processes exactly two orders. -/
theorem continuation_loop (it1 it2 : IterationInput) (rest : List IterationInput)
    (h1 : iterationOk it1 = true) (h2 : iterationOk it2 = true) :
    (main_loop (it1 :: rest) = SessionResult.normalExit 1 ↔ lowerStr it1.answer ≠ "s")
    ∧ (lowerStr it1.answer = "s" → lowerStr it2.answer ≠ "s" →
        main_loop (it1 :: it2 :: rest) = SessionResult.normalExit 2) := by
  have g1 : (get_user_input it1.customer it1.items it1.total it1.payment it1.discount).2
      = Except.ok () := by
    revert h1
    unfold iterationOk isOk
    cases (get_user_input it1.customer it1.items it1.total it1.payment it1.discount).2 with
    | ok u => cases u; intro _; rfl
    | error e => intro h; exact absurd h (by simp)
  have g2 : (get_user_input it2.customer it2.items it2.total it2.payment it2.discount).2
      = Except.ok () := by
    revert h2
    unfold iterationOk isOk
    cases (get_user_input it2.customer it2.items it2.total it2.payment it2.discount).2 with
    | ok u => cases u; intro _; rfl
    | error e => intro h; exact absurd h (by simp)
  have step : ∀ (it : IterationInput) (l : List IterationInput),
      (get_user_input it.customer it.items it.total it.payment it.discount).2
        = Except.ok () →
      main_loop (it :: l) =
        if lowerStr it.answer = "s" then
          match main_loop l with
          | SessionResult.normalExit n => SessionResult.normalExit (n + 1)
          | SessionResult.crash n => SessionResult.crash (n + 1)
          | SessionResult.needMoreInput => SessionResult.needMoreInput
        else SessionResult.normalExit 1 := by
    intro it l hok
    simp only [main_loop, hok]
  constructor
  · constructor
    · intro hres hs
      rw [step it1 rest g1, if_pos hs] at hres
      cases hrest : main_loop rest with
      | normalExit n =>
        simp only [hrest] at hres
        injection hres with hn
        refine main_loop_ne_normalExit_zero rest ?_
        rw [hrest]
        congr 1
        omega
      | crash n =>
        simp only [hrest] at hres
        exact SessionResult.noConfusion hres
      | needMoreInput =>
        simp only [hrest] at hres
        exact SessionResult.noConfusion hres
    · intro hs
      rw [step it1 rest g1, if_neg hs]
  · intro hs1 hs2
    rw [step it1 (it2 :: rest) g1, if_pos hs1, step it2 rest g2, if_neg hs2]

/-- Witness for C9: with an `"s"` answer then an `"n"` answer, the session
processes exactly two orders and exits normally. -/
theorem continuation_loop_witness :
    main_loop [{ customer := "A", items := "x", total := "10",
                 payment := "1", discount := "1", answer := "s" },
               { customer := "B", items := "y", total := "20",
                 payment := "2", discount := "2", answer := "n" }]
      = SessionResult.normalExit 2 :=
  (continuation_loop
      { customer := "A", items := "x", total := "10",
        payment := "1", discount := "1", answer := "s" }
      { customer := "B", items := "y", total := "20",
        payment := "2", discount := "2", answer := "n" }
      [] (by decide) (by decide)).2 (by decide) (by decide)

end Projeto
